import Mathlib

/-!
Shallow embedding of the contract-record filter and aggregation pipeline
from 分包合同数据分析.py.

Dates are modelled as integers in YYYYMMDD form (chronological order
coincides with integer order, and the year of a date d is d / 10000);
amounts are modelled as exact integers.  A pandas column value that is
null (NaT for dates, NaN for amounts) is modelled as none; elementwise
pandas comparisons against a null value yield False, which the series
comparison helpers below reproduce.
-/

/-- One row of the loaded table, after load_data has coerced its columns:
签订时间 (signing_date), 履行期限(起) (performance_start), 履行期限(止)
(performance_end), 标的金额 (contract_amount), 承办部门 (department,
filled with 未知部门 when absent, hence non-null), 选商方式
(procurement_method). -/
structure ContractRecord where
  signing_date : Option Int
  performance_start : Option Int
  performance_end : Option Int
  contract_amount : Option Int
  department : String
  procurement_method : String
deriving DecidableEq, Repr

/-- The sidebar filter inputs: start_date / end_date from the date
inputs, min_amount_input / max_amount_input from the number inputs,
selected_departments and selected_types from the two multiselects. -/
structure FilterCriteria where
  start_date : Int
  end_date : Int
  min_amount_input : Int
  max_amount_input : Int
  selected_departments : List String
  selected_types : List String
deriving DecidableEq, Repr

/-- Elementwise pandas comparison series >= x: False on a null entry. -/
def seriesGe (v : Option Int) (x : Int) : Bool :=
  match v with
  | none => false
  | some a => x ≤ a

/-- Elementwise pandas comparison series <= x: False on a null entry. -/
def seriesLe (v : Option Int) (x : Int) : Bool :=
  match v with
  | none => false
  | some a => a ≤ x

/-- Elementwise pandas comparison series > x: False on a null entry. -/
def seriesGt (v : Option Int) (x : Int) : Bool :=
  match v with
  | none => false
  | some a => x < a

/-- The boolean mask of the filter at lines 334-341: the six elementwise
conditions combined with &, in the order they appear in the source. -/
def rowPasses (c : FilterCriteria) (r : ContractRecord) : Bool :=
  seriesGe r.signing_date c.start_date &&
  seriesLe r.signing_date c.end_date &&
  seriesGe r.contract_amount c.min_amount_input &&
  seriesLe r.contract_amount c.max_amount_input &&
  c.selected_types.contains r.procurement_method &&
  c.selected_departments.contains r.department

/-- filtered_df = df[mask].copy(): the rows of df whose mask entry is
True, as a new collection. -/
def filtered_df (df : List ContractRecord) (c : FilterCriteria) :
    List ContractRecord :=
  df.filter (rowPasses c)

/-- The boolean mask of the ongoing-project selection at lines 507-511:
履行期限(止) > current_time, department membership, procurement
membership. -/
def ongoingPasses (current_time : Int) (selected_departments
    selected_types : List String) (r : ContractRecord) : Bool :=
  seriesGt r.performance_end current_time &&
  selected_departments.contains r.department &&
  selected_types.contains r.procurement_method

/-- ongoing_projects = df[mask].copy() over the FULL dataframe df (not
filtered_df): the signing-date range and the amount range do not occur
in this mask. -/
def ongoing_projects (df : List ContractRecord) (current_time : Int)
    (selected_departments selected_types : List String) :
    List ContractRecord :=
  df.filter (ongoingPasses current_time selected_departments selected_types)

/-- The amount of a record with nulls read as 0, as pandas sum does when
it skips NaN entries. -/
def amountOrZero (r : ContractRecord) : Int :=
  r.contract_amount.getD 0

/-- Pandas sum over the 标的金额 column of a group: NaN entries are
skipped, i.e. contribute 0, and an all-null group sums to 0. -/
def sumAmount (rs : List ContractRecord) : Int :=
  (rs.map amountOrZero).sum

/-- Pandas count over the 标的金额 column of a group: only non-null
entries are counted. -/
def countAmount (rs : List ContractRecord) : Nat :=
  (rs.filter (fun r => r.contract_amount.isSome)).length

/-- The year of 履行期限(起), as .dt.year: null start date gives a null
year. -/
def yearOf (r : ContractRecord) : Option Int :=
  r.performance_start.map (fun d => d / 10000)

/-- The distinct group keys of groupby('年份'), in ascending order;
rows whose key is null are dropped by groupby. -/
def yearKeys (rs : List ContractRecord) : List Int :=
  List.insertionSort (fun a b => a ≤ b) (rs.filterMap yearOf).dedup

/-- The rows of a group of groupby('年份'). -/
def yearGroup (rs : List ContractRecord) (y : Int) : List ContractRecord :=
  rs.filter (fun r => yearOf r == some y)

/-- yearly_stats (lines 515-521): per year of 履行期限(起), 项目数量 =
count of non-null 标的金额 in the group and 合同金额 = sum of 标的金额
in the group, keyed ascending by year (the default groupby key order). -/
def yearly_stats (rs : List ContractRecord) : List (Int × Nat × Int) :=
  (yearKeys rs).map (fun y =>
    (y, countAmount (yearGroup rs y), sumAmount (yearGroup rs y)))

/-- The distinct values of the 选商方式 column, the keys of
groupby('选商方式'). -/
def typeKeys (rs : List ContractRecord) : List String :=
  (rs.map (fun r => r.procurement_method)).dedup

/-- The rows of a group of groupby('选商方式'). -/
def typeGroup (rs : List ContractRecord) (t : String) : List ContractRecord :=
  rs.filter (fun r => r.procurement_method == t)

/-- amount_by_type (line 384): groupby('选商方式')['标的金额'].sum()
followed by sort_values(ascending=False): per procurement method the
sum of amounts, sorted by descending sum. -/
def amount_by_type (rs : List ContractRecord) : List (String × Int) :=
  List.insertionSort (fun a b => b.2 ≤ a.2)
    ((typeKeys rs).map (fun t => (t, sumAmount (typeGroup rs t))))

/-- A raw spreadsheet row before load_data coerces it: the date and
amount cells as free-form text, the department cell possibly absent. -/
structure RawRecord where
  signing_date : String
  performance_start : String
  performance_end : String
  contract_amount : String
  department : Option String
  procurement_method : String
deriving DecidableEq, Repr

/-- The numeric value of a decimal digit character, none on any other
character. -/
def digitVal (ch : Char) : Option Nat :=
  if ch.isDigit then some (ch.toNat - 48) else none

/-- Read a digit string left to right; any non-digit character makes the
whole cell unparseable. -/
def parseDigitsAux : List Char → Nat → Option Nat
  | [], acc => some acc
  | ch :: rest, acc =>
    match digitVal ch with
    | none => none
    | some d => parseDigitsAux rest (acc * 10 + d)

/-- A cell parses when it is a nonempty string of decimal digits (dates
in YYYYMMDD form, amounts in integral units); anything else fails to
parse. -/
def parseCell (s : String) : Option Int :=
  if s.data.isEmpty then none
  else (parseDigitsAux s.data 0).map Int.ofNat

/-- pd.to_datetime(col, errors=coerce) on one cell: an unparseable cell
becomes null (NaT) instead of raising. -/
def coerceDate (s : String) : Option Int :=
  parseCell s

/-- pd.to_numeric(col, errors=coerce) on one cell: an unparseable cell
becomes null (NaN) instead of raising. -/
def coerceAmount (s : String) : Option Int :=
  parseCell s

/-- The per-row effect of load_data (lines 203-218): coerce the three
date columns and the amount column, and fillna the department with
未知部门. -/
def coerceRow (row : RawRecord) : ContractRecord :=
  { signing_date := coerceDate row.signing_date
    performance_start := coerceDate row.performance_start
    performance_end := coerceDate row.performance_end
    contract_amount := coerceAmount row.contract_amount
    department := row.department.getD "未知部门"
    procurement_method := row.procurement_method }

/-- load_data applied to the raw sheet: columnwise coercion keeps every
row. -/
def load_data (raws : List RawRecord) : List ContractRecord :=
  raws.map coerceRow

/-- The top of the script (lines 198-200 and 334-341): when the backing
file is absent (source = none) the script calls st.stop() after the
error message, before load_data and before any filtering; otherwise it
loads and filters. -/
def run_dashboard (source : Option (List RawRecord)) (c : FilterCriteria) :
    Except String (List ContractRecord) :=
  match source with
  | none => Except.error "文件未找到"
  | some raws => Except.ok (filtered_df (load_data raws) c)

/-- Everything the script derives from the dataframe in one pass,
together with the dataframe it leaves behind: filtered_df, the two
aggregations over it, ongoing_projects with its yearly aggregation. -/
def analyze (df : List ContractRecord) (c : FilterCriteria)
    (current_time : Int) :
    (List ContractRecord × List (String × Int) × List ContractRecord ×
      List (Int × Nat × Int)) × List ContractRecord :=
  let f := filtered_df df c
  let o := ongoing_projects df current_time c.selected_departments
    c.selected_types
  ((f, amount_by_type f, o, yearly_stats o), df)

/-- Sample record: complete fields, department A, method X. -/
def rX : ContractRecord :=
  ⟨some 20240101, some 20240201, some 20990101, some 100, "A", "X"⟩

/-- Sample record: complete fields, department A, method Y. -/
def rY : ContractRecord :=
  ⟨some 20240105, some 20240301, some 20990101, some 200, "A", "Y"⟩

/-- Sample record whose 签订时间 failed to parse (NaT). -/
def rNullSigning : ContractRecord :=
  ⟨none, some 20230301, some 20990101, some 50, "B", "X"⟩

/-- Sample record whose 标的金额 failed to parse (NaN). -/
def rNullAmount : ContractRecord :=
  ⟨some 20240103, some 20240301, some 20990101, none, "A", "Y"⟩

/-- Sample record whose 履行期限(止) failed to parse (NaT). -/
def rNullEnd : ContractRecord :=
  ⟨some 20240101, some 20240201, none, some 100, "A", "X"⟩

/-- Criteria covering every value of the sample records. -/
def critAll : FilterCriteria :=
  ⟨20240101, 20240105, 50, 200, ["A", "B"], ["X", "Y"]⟩

/-- critAll with the department multiselect emptied. -/
def critNoDept : FilterCriteria :=
  ⟨20240101, 20240105, 50, 200, [], ["X", "Y"]⟩

/-- critAll with the procurement multiselect emptied. -/
def critNoType : FilterCriteria :=
  ⟨20240101, 20240105, 50, 200, ["A", "B"], []⟩

/-- Full-universe criteria for the two-record set [rX, rNullSigning]:
the date range is the observed min/max over non-null signing dates, the
amount range the observed min/max, and the two sets are exactly the
values that occur. -/
def critUniverse : FilterCriteria :=
  ⟨20240101, 20240101, 50, 100, ["A", "B"], ["X"]⟩

/-- A raw row whose amount cell is unparseable text. -/
def rawBad : RawRecord :=
  ⟨"20240101", "20240201", "20990101", "abc", none, "X"⟩

/-- Bridge between the boolean mask of filtered_df and the four
predicates of the specification. -/
theorem rowPasses_iff (c : FilterCriteria) (r : ContractRecord) :
    rowPasses c r = true ↔
      ((∃ d, r.signing_date = some d ∧ c.start_date ≤ d ∧ d ≤ c.end_date) ∧
       (∃ a, r.contract_amount = some a ∧ c.min_amount_input ≤ a ∧
         a ≤ c.max_amount_input) ∧
       r.procurement_method ∈ c.selected_types ∧
       r.department ∈ c.selected_departments) := by
  cases hs : r.signing_date <;> cases ha : r.contract_amount <;>
    simp [rowPasses, seriesGe, seriesLe, hs, ha, and_assoc]

/-- Bridge between the boolean mask of ongoing_projects and the
predicates of the specification. -/
theorem ongoingPasses_iff (T : Int) (depts types : List String)
    (r : ContractRecord) :
    ongoingPasses T depts types r = true ↔
      ((∃ e, r.performance_end = some e ∧ T < e) ∧
       r.department ∈ depts ∧ r.procurement_method ∈ types) := by
  cases he : r.performance_end <;>
    simp [ongoingPasses, seriesGt, he, and_assoc]

/-- Claim C1: a record r of the loaded set is in filtered_df exactly
when all four predicates hold simultaneously: signing_date within
[start, end] inclusive (null signing_date excluded), contract_amount
within [min, max] inclusive (null amount excluded), procurement_method
in the accepted set, and department in the accepted set; endpoint
values are included since the comparisons are non-strict. -/
theorem C1_filtered_membership (df : List ContractRecord)
    (c : FilterCriteria) (r : ContractRecord) (hr : r ∈ df) :
    r ∈ filtered_df df c ↔
      ((∃ d, r.signing_date = some d ∧ c.start_date ≤ d ∧ d ≤ c.end_date) ∧
       (∃ a, r.contract_amount = some a ∧ c.min_amount_input ≤ a ∧
         a ≤ c.max_amount_input) ∧
       r.procurement_method ∈ c.selected_types ∧
       r.department ∈ c.selected_departments) := by
  rw [filtered_df, List.mem_filter, ← rowPasses_iff c r]
  simp [hr]

/-- Witness for C1 at a concrete record and criteria, with the record
sitting exactly on the range endpoints. -/
theorem C1_filtered_membership_witness :
    rX ∈ filtered_df [rX] critAll :=
  (C1_filtered_membership [rX] critAll rX (by decide)).mpr
    ⟨⟨20240101, rfl, by decide, by decide⟩,
     ⟨100, rfl, by decide, by decide⟩, by decide, by decide⟩

/-- Counterexample to claim C2: with an emptied department multiselect
the record rX, which passes every other predicate (as the critAll run
shows), is excluded, and likewise for an emptied procurement
multiselect — an empty accepted set is not "no restriction". -/
theorem C2_counterexample :
    filtered_df [rX] critAll = [rX] ∧
    filtered_df [rX] critNoDept = [] ∧
    filtered_df [rX] critNoType = [] := by
  refine ⟨rfl, rfl, rfl⟩

/-- Claim C2 amended: an empty accepted-department (or
accepted-procurement) set excludes every record, because membership in
the empty set never holds; the code has no special case treating an
empty selection as "no restriction". -/
theorem C2_empty_set_excludes (df : List ContractRecord)
    (c : FilterCriteria) (r : ContractRecord) :
    (c.selected_departments = [] → r ∉ filtered_df df c) ∧
    (c.selected_types = [] → r ∉ filtered_df df c) := by
  constructor <;> intro hempty hmem <;>
    have hspec := (rowPasses_iff c r).mp (List.mem_filter.mp hmem).2
  · rw [hempty] at hspec
    exact (List.not_mem_nil r.department) hspec.2.2.2
  · rw [hempty] at hspec
    exact (List.not_mem_nil r.procurement_method) hspec.2.2.1

/-- Witness for the amended C2 at concrete inputs. -/
theorem C2_empty_set_excludes_witness :
    rX ∉ filtered_df [rX] critNoDept ∧ rX ∉ filtered_df [rX] critNoType :=
  ⟨(C2_empty_set_excludes [rX] critNoDept rX).1 rfl,
   (C2_empty_set_excludes [rX] critNoType rX).2 rfl⟩

/-- Claim C3: a record r of the loaded set is in ongoing_projects
exactly when its 履行期限(止) is strictly later than the evaluation
instant and its department and procurement method are in the accepted
sets; the signing-date range and amount range do not occur in the
selection, which is taken over the full dataframe. -/
theorem C3_ongoing_membership (df : List ContractRecord)
    (current_time : Int) (depts types : List String)
    (r : ContractRecord) (hr : r ∈ df) :
    r ∈ ongoing_projects df current_time depts types ↔
      ((∃ e, r.performance_end = some e ∧ current_time < e) ∧
       r.department ∈ depts ∧ r.procurement_method ∈ types) := by
  rw [ongoing_projects, List.mem_filter, ← ongoingPasses_iff current_time depts types r]
  simp [hr]

/-- Witness for C3 at a concrete record with a future end date. -/
theorem C3_ongoing_membership_witness :
    rX ∈ ongoing_projects [rX] 20250101 ["A"] ["X"] :=
  (C3_ongoing_membership [rX] 20250101 ["A"] ["X"] rX (by decide)).mpr
    ⟨⟨20990101, rfl, by decide⟩, by decide, by decide⟩

/-- Counterexample to claim C4: rNullAmount has a null amount and is the
single ongoing project; in yearly_stats its year 2024 gets 项目数量 = 0,
not 1 — the pandas count aggregation over 标的金额 skips the null, so
the record is NOT counted in the per-key record count. -/
theorem C4_counterexample :
    rNullAmount.contract_amount = none ∧
    ongoing_projects [rNullAmount] 20250101 ["A"] ["Y"] = [rNullAmount] ∧
    yearly_stats [rNullAmount] = [(2024, 0, 0)] := by
  refine ⟨rfl, rfl, by decide⟩

/-- Claim C4 amended: a record with a null contract_amount matches no
numeric [min, max] range and is excluded from filtered_df; in the
yearly aggregation its null amount contributes 0 to the per-key sum,
but the per-key count skips it too (the count aggregates the 标的金额
column, counting only non-null entries), so adding such a record to a
group changes neither the count nor the sum. -/
theorem C4_null_amount (df : List ContractRecord) (c : FilterCriteria)
    (rs : List ContractRecord) (r : ContractRecord) (y : Int)
    (h : r.contract_amount = none) :
    r ∉ filtered_df df c ∧
    countAmount (yearGroup (r :: rs) y) = countAmount (yearGroup rs y) ∧
    sumAmount (yearGroup (r :: rs) y) = sumAmount (yearGroup rs y) := by
  refine ⟨fun hmem => ?_, ?_, ?_⟩
  · obtain ⟨a, ha, -⟩ :=
      ((rowPasses_iff c r).mp (List.mem_filter.mp hmem).2).2.1
    rw [h] at ha
    cases ha
  · by_cases hy : (yearOf r == some y) = true
    · simp [yearGroup, countAmount, List.filter_cons, hy, h]
    · simp [yearGroup, List.filter_cons, hy]
  · by_cases hy : (yearOf r == some y) = true
    · simp [yearGroup, sumAmount, List.filter_cons, hy, amountOrZero, h]
    · simp [yearGroup, List.filter_cons, hy]

/-- Witness for the amended C4 at concrete inputs. -/
theorem C4_null_amount_witness :
    rNullAmount ∉ filtered_df [rNullAmount] critAll ∧
    countAmount (yearGroup (rNullAmount :: [rY]) 2024) =
      countAmount (yearGroup [rY] 2024) ∧
    sumAmount (yearGroup (rNullAmount :: [rY]) 2024) =
      sumAmount (yearGroup [rY] 2024) :=
  C4_null_amount [rNullAmount] critAll [rY] rNullAmount 2024 rfl

/-- Counterexample to claim C5: over the record set [rX, rNullSigning]
the criteria critUniverse take the accepted sets equal to the full
universe of occurring values and both ranges equal to the observed
min/max (the observed date range is over the non-null signing dates,
as df[签订时间].min()/max() skip NaT), yet the record with the null
signing date is dropped, so the output is not the whole input. -/
theorem C5_counterexample :
    rNullSigning ∈ [rX, rNullSigning] ∧
    filtered_df [rX, rNullSigning] critUniverse = [rX] := by
  refine ⟨by decide, rfl⟩

/-- Claim C5 amended: the Filter Evaluator returns the entire input
unchanged whenever every record has a non-null signing date lying in
the criteria date range, a non-null amount lying in the amount range,
and department and procurement method in the accepted sets — in
particular for full-universe criteria over a record set with no null
signing dates or amounts. -/
theorem C5_full_universe (df : List ContractRecord) (c : FilterCriteria)
    (hdate : ∀ r ∈ df, ∃ d, r.signing_date = some d ∧
      c.start_date ≤ d ∧ d ≤ c.end_date)
    (hamt : ∀ r ∈ df, ∃ a, r.contract_amount = some a ∧
      c.min_amount_input ≤ a ∧ a ≤ c.max_amount_input)
    (htype : ∀ r ∈ df, r.procurement_method ∈ c.selected_types)
    (hdept : ∀ r ∈ df, r.department ∈ c.selected_departments) :
    filtered_df df c = df := by
  rw [filtered_df]
  refine List.filter_eq_self.mpr fun r hr => ?_
  exact (rowPasses_iff c r).mpr
    ⟨hdate r hr, hamt r hr, htype r hr, hdept r hr⟩

/-- Witness for the amended C5 at a concrete one-record set with
full-universe criteria. -/
theorem C5_full_universe_witness :
    filtered_df [rX] critUniverse = [rX] :=
  C5_full_universe [rX] critUniverse
    (fun r hr => by
      rw [List.mem_singleton] at hr
      exact hr ▸ ⟨20240101, rfl, by decide, by decide⟩)
    (fun r hr => by
      rw [List.mem_singleton] at hr
      exact hr ▸ ⟨100, rfl, by decide, by decide⟩)
    (fun r hr => by rw [List.mem_singleton] at hr; exact hr ▸ (by decide))
    (fun r hr => by rw [List.mem_singleton] at hr; exact hr ▸ (by decide))

/-- Claim C6: a malformed date or amount cell is coerced to null while
the row itself is kept (the loaded row count always equals the raw row
count and the coerced row is still present), whereas an absent backing
dataset makes the dashboard stop with an error before any filtering. -/
theorem C6_error_handling (raws : List RawRecord) (c : FilterCriteria)
    (row : RawRecord) (hrow : row ∈ raws)
    (hbad : coerceAmount row.contract_amount = none) :
    (load_data raws).length = raws.length ∧
    coerceRow row ∈ load_data raws ∧
    (coerceRow row).contract_amount = none ∧
    run_dashboard none c = Except.error "文件未找到" :=
  ⟨List.length_map raws coerceRow, List.mem_map_of_mem coerceRow hrow,
   hbad, rfl⟩

/-- Witness for C6 at a concrete raw row with the unparseable amount
cell "abc". -/
theorem C6_error_handling_witness :
    (load_data [rawBad]).length = [rawBad].length ∧
    coerceRow rawBad ∈ load_data [rawBad] ∧
    (coerceRow rawBad).contract_amount = none ∧
    run_dashboard none critAll = Except.error "文件未找到" :=
  C6_error_handling [rawBad] critAll rawBad (by decide) (by decide)

/-- Claim C7: amount_by_type is sorted by descending per-key sum and
yearly_stats is sorted by ascending year. -/
theorem C7_sort_orders (fs os : List ContractRecord) :
    List.Sorted (fun a b => b.2 ≤ a.2) (amount_by_type fs) ∧
    List.Sorted (fun a b => a.1 ≤ b.1) (yearly_stats os) := by
  constructor
  · haveI : IsTotal (String × Int) (fun a b => b.2 ≤ a.2) :=
      ⟨fun a b => le_total b.2 a.2⟩
    haveI : IsTrans (String × Int) (fun a b => b.2 ≤ a.2) :=
      ⟨fun _ _ _ h1 h2 => le_trans h2 h1⟩
    exact List.sorted_insertionSort _ _
  · have hk : List.Sorted (fun a b => a ≤ b) (yearKeys os) := by
      haveI : IsTotal Int (fun a b => a ≤ b) := ⟨le_total⟩
      haveI : IsTrans Int (fun a b => a ≤ b) := ⟨fun _ _ _ => le_trans⟩
      exact List.sorted_insertionSort _ _
    exact hk.map _ (fun _ _ hab => hab)

/-- Claim C8: the per-key sums and counts of both aggregations are
invariant under any permutation of the input records. -/
theorem C8_perm_invariant (l₁ l₂ : List ContractRecord)
    (h : l₁.Perm l₂) (t : String) (y : Int) :
    sumAmount (typeGroup l₁ t) = sumAmount (typeGroup l₂ t) ∧
    (typeGroup l₁ t).length = (typeGroup l₂ t).length ∧
    countAmount (yearGroup l₁ y) = countAmount (yearGroup l₂ y) ∧
    sumAmount (yearGroup l₁ y) = sumAmount (yearGroup l₂ y) := by
  have ht := h.filter (fun r => r.procurement_method == t)
  have hy := h.filter (fun r => yearOf r == some y)
  have hyc := hy.filter (fun r => r.contract_amount.isSome)
  exact ⟨(ht.map amountOrZero).sum_eq, ht.length_eq, hyc.length_eq,
    (hy.map amountOrZero).sum_eq⟩

/-- Witness for C8 on a concrete two-record swap. -/
theorem C8_perm_invariant_witness :
    sumAmount (typeGroup [rX, rY] "X") = sumAmount (typeGroup [rY, rX] "X") ∧
    (typeGroup [rX, rY] "X").length = (typeGroup [rY, rX] "X").length ∧
    countAmount (yearGroup [rX, rY] 2024) =
      countAmount (yearGroup [rY, rX] 2024) ∧
    sumAmount (yearGroup [rX, rY] 2024) =
      sumAmount (yearGroup [rY, rX] 2024) :=
  C8_perm_invariant [rX, rY] [rY, rX] (by decide) "X" 2024

/-- Claim C9: filtering and ongoing-project selection produce new
collections drawn record-for-record from the source (each output row IS
a source row, fields untouched), and a full analysis pass hands the
source dataframe back unchanged. -/
theorem C9_no_mutation (df : List ContractRecord) (c : FilterCriteria)
    (current_time : Int) :
    (filtered_df df c).Sublist df ∧
    (ongoing_projects df current_time c.selected_departments
      c.selected_types).Sublist df ∧
    (analyze df c current_time).2 = df :=
  ⟨List.filter_sublist df, List.filter_sublist df, rfl⟩

/-- Claim C10: a record whose 履行期限(止) is null is never selected as
an ongoing project, for every evaluation instant and every
department/procurement selection. -/
theorem C10_null_end_excluded (df : List ContractRecord)
    (current_time : Int) (depts types : List String)
    (r : ContractRecord) (h : r.performance_end = none) :
    r ∉ ongoing_projects df current_time depts types := by
  intro hmem
  have hp := (List.mem_filter.mp hmem).2
  simp [ongoingPasses, seriesGt, h] at hp

/-- Witness for C10 at a concrete record with a null end date. -/
theorem C10_null_end_excluded_witness :
    rNullEnd ∉ ongoing_projects [rNullEnd] 20250101 ["A"] ["X"] :=
  C10_null_end_excluded [rNullEnd] 20250101 ["A"] ["X"] rNullEnd rfl
